import Mathlib

/-!
Verification of the codeagent natural-language CLI core: the compound
operation parser (compoundIntentRecognizer), the single-intent classifier
(intentRecognizer), the compound operation executor
(compoundOperationExecutor), and the model router (llm/router).

The TypeScript sources are shallowly embedded: strings are Lean strings
over their character lists, the JavaScript regular expressions used by the
parsers are embedded through a small backtracking matcher with JS
semantics (ordered alternation, greedy and lazy quantifiers, capture
groups, case-insensitive matching as all source patterns carry the i
flag), numbers occurring in the router's scoring are embedded as rationals
(the scores are sums and quotients of small decimal constants), and the
executor's external collaborators (the file-existence check and the four
command handlers, which the spec treats as out of scope) are oracle
parameters.  Console output, spinners and timing code are not modelled.
-/

set_option maxRecDepth 200000

namespace CodeAgent

/-! ### JavaScript string primitives (ASCII scope of the repository's inputs) -/

/-- JS `String.prototype.toLowerCase` restricted to ASCII. -/
def jsLower (s : String) : String := String.mk (s.toList.map Char.toLower)

/-- JS whitespace for `trim`. -/
def isSpaceJS (c : Char) : Bool :=
  c == ' ' || c == '\t' || c == '\n' || c == '\r' || c == Char.ofNat 11 || c == Char.ofNat 12

/-- JS `String.prototype.trim`. -/
def jsTrim (s : String) : String :=
  String.mk (((s.toList.dropWhile isSpaceJS).reverse.dropWhile isSpaceJS).reverse)

/-- Char-list version of "needle is a leading segment of hay". -/
def startsWithL : List Char → List Char → Bool
  | [], _ => true
  | _ :: _, [] => false
  | a :: as_, b :: bs => a == b && startsWithL as_ bs

/-- Char-list version of substring containment. -/
def containsL (hay needle : List Char) : Bool :=
  match hay with
  | [] => needle.isEmpty
  | _ :: t => startsWithL needle hay || containsL t needle

/-- JS `hay.includes(needle)` (case sensitive). -/
def jsIncludes (hay needle : String) : Bool := containsL hay.toList needle.toList

/-- JS `s.endsWith(suffix)`. -/
def jsEndsWith (s suffix : String) : Bool :=
  startsWithL suffix.toList.reverse s.toList.reverse

/-- Split a char list at every occurrence of a separator character. -/
def splitOnCharL (sep : Char) : List Char → List (List Char)
  | [] => [[]]
  | c :: t =>
    let r := splitOnCharL sep t
    if c == sep then [] :: r
    else
      match r with
      | h :: t2 => (c :: h) :: t2
      | [] => [[c]]

/-- JS `s.split(sep)` for a one-character separator. -/
def jsSplitChar (s : String) (sep : Char) : List String :=
  (splitOnCharL sep s.toList).map String.mk

/-- JS `array.join(sep)` for strings. -/
def joinSep (sep : String) : List String → String
  | [] => ""
  | [x] => x
  | x :: xs => x ++ sep ++ joinSep sep xs

/-! ### A JS-semantics regular-expression matcher

All regular expressions appearing in the embedded sources carry the `i`
flag, so the matcher is uniformly case-insensitive on literals.  The
matcher is continuation-passing and returns the first match in JS
backtracking priority order: ordered alternation, greedy quantifiers
prefer longer iteration, lazy quantifiers prefer shorter, and scanning
starts at the leftmost position.  A fuel bound (one more than the input
length) bounds star iteration exactly as JS does via its empty-iteration
cut; every starred subpattern in the embedded sources consumes at least
one character per iteration, so the bound is never reached. -/

/-- One membership test of a character class. -/
inductive CItem where
  | ch (c : Char)
  | word
  | space
  | anyNN
deriving DecidableEq

/-- A (possibly negated) character class. -/
structure CClass where
  neg : Bool
  items : List CItem
deriving DecidableEq

def itemMatch (c : Char) : CItem → Bool
  | CItem.ch a => c.toLower == a.toLower
  | CItem.word => c.isAlphanum || c == '_'
  | CItem.space => isSpaceJS c
  | CItem.anyNN => !(c == '\n' || c == '\r' || c == Char.ofNat 0x2028 || c == Char.ofNat 0x2029)

def ccMatch (cc : CClass) (c : Char) : Bool :=
  let m := cc.items.any (itemMatch c)
  if cc.neg then !m else m

/-- Regular-expression abstract syntax. `star`/`opt` carry a laziness flag. -/
inductive RE where
  | eps
  | cls (cc : CClass)
  | cat (a b : RE)
  | alt (a b : RE)
  | star (lz : Bool) (a : RE)
  | opt (lz : Bool) (a : RE)
  | grp (n : Nat) (a : RE)
deriving DecidableEq

/-- Captured groups: group index paired with the captured characters. -/
abbrev Groups := List (Nat × List Char)

abbrev MRes := Option (Groups × List Char)

abbrev MCont := List Char → Groups → MRes

/-- Record a capture, overwriting any previous capture of the same group. -/
def setG (g : Groups) (n : Nat) (v : List Char) : Groups :=
  (n, v) :: g.filter (fun p => p.1 ≠ n)

/-- One fuel level of the matcher: structural recursion over the pattern;
`rec` re-enters the matcher one fuel level down for each star iteration. -/
def mstep (rec : RE → List Char → Groups → MCont → MRes) :
    RE → List Char → Groups → MCont → MRes
  | RE.eps, s, g, k => k s g
  | RE.cls cc, s, g, k =>
    match s with
    | [] => none
    | c :: rest => if ccMatch cc c then k rest g else none
  | RE.cat a b, s, g, k => mstep rec a s g (fun s1 g1 => mstep rec b s1 g1 k)
  | RE.alt a b, s, g, k => (mstep rec a s g k) <|> (mstep rec b s g k)
  | RE.opt lz a, s, g, k =>
    if lz then (k s g) <|> (mstep rec a s g k)
    else (mstep rec a s g k) <|> (k s g)
  | RE.star lz a, s, g, k =>
    let step : MCont := fun s1 g1 =>
      if s1.length < s.length then rec (RE.star lz a) s1 g1 k else k s1 g1
    if lz then (k s g) <|> (mstep rec a s g step)
    else (mstep rec a s g step) <|> (k s g)
  | RE.grp n a, s, g, k =>
    mstep rec a s g (fun s1 g1 => k s1 (setG g1 n (s.take (s.length - s1.length))))

/-- The matcher: fuel bounds the total number of star iterations. -/
def mrun : Nat → RE → List Char → Groups → MCont → MRes
  | 0, re, s, g, k => mstep (fun _ _ _ _ => none) re s g k
  | f + 1, re, s, g, k => mstep (mrun f) re s g k

/-- Unanchored search: try each start position from the left. -/
def msearchAux (re : RE) (fuel : Nat) : List Char → Option (List Char × Groups × List Char)
  | [] =>
    match mrun fuel re [] [] (fun rest g => some (g, rest)) with
    | some (g, rest) => some ([], g, rest)
    | none => none
  | c :: t =>
    match mrun fuel re (c :: t) [] (fun rest g => some (g, rest)) with
    | some (g, rest) => some (c :: t, g, rest)
    | none => msearchAux re fuel t

/-- Find the leftmost match of `re` in `s`: returns the suffix at the match
start, the captured groups, and the rest after the match. -/
def reFind (re : RE) (s : String) : Option (List Char × Groups × List Char) :=
  let cs := s.toList
  msearchAux re (cs.length + 1) cs

/-- JS `re.test(s)`. -/
def reTest (re : RE) (s : String) : Bool := (reFind re s).isSome

/-- JS `s.match(re)[n]`: `none` when there is no match or the group did not
participate in the match. -/
def reGroup (re : RE) (n : Nat) (s : String) : Option String :=
  match reFind re s with
  | none => none
  | some (_, g, _) =>
    match g.find? (fun p => p.1 == n) with
    | some p => some (String.mk p.2)
    | none => none

/-- JS `s.match(re)[0]`: the full matched text. -/
def reMatch0 (re : RE) (s : String) : Option String :=
  match reFind re s with
  | none => none
  | some (st, _, rest) => some (String.mk (st.take (st.length - rest.length)))

/-! Pattern construction helpers. -/

def litC (c : Char) : RE := RE.cls ⟨false, [CItem.ch c]⟩

/-- A case-insensitive literal string. -/
def strR (s : String) : RE := (s.toList.map litC).foldr RE.cat RE.eps

/-- Ordered alternation of a list of patterns (JS `x|y|z`). -/
def altsR : List RE → RE
  | [] => RE.cls ⟨false, []⟩
  | [r] => r
  | r :: rest => RE.alt r (altsR rest)

def altsS (ss : List String) : RE := altsR (ss.map strR)

def catsR (rs : List RE) : RE := rs.foldr RE.cat RE.eps

/-- `\s` -/
def wsC : RE := RE.cls ⟨false, [CItem.space]⟩
/-- `\w` -/
def wordC : RE := RE.cls ⟨false, [CItem.word]⟩
/-- `.` -/
def dotC : RE := RE.cls ⟨false, [CItem.anyNN]⟩
/-- `[^,]` -/
def notComma : RE := RE.cls ⟨true, [CItem.ch ',']⟩
/-- `[^.]` -/
def notDotC : RE := RE.cls ⟨true, [CItem.ch '.']⟩
/-- `[\w\/\.\-]` -/
def pathC : RE := RE.cls ⟨false, [CItem.word, CItem.ch '/', CItem.ch '.', CItem.ch '-']⟩

/-- Greedy `+`. -/
def plusG (r : RE) : RE := RE.cat r (RE.star false r)
/-- Lazy `+?`. -/
def plusL (r : RE) : RE := RE.cat r (RE.star true r)
/-- Greedy `*`. -/
def starG (r : RE) : RE := RE.star false r
/-- Lazy `*?`. -/
def starL (r : RE) : RE := RE.star true r
/-- Greedy `?`. -/
def optG (r : RE) : RE := RE.opt false r
/-- `\s+` -/
def wsP : RE := plusG wsC

/-! ### Data model of src/utils/compoundIntentRecognizer.ts -/

/-- The closed set of operation kinds. -/
inductive Intent where
  | write
  | edit
  | move
  | ask
  | plan
deriving DecidableEq

/-- One unit of work produced by the compound parser.  The TypeScript
`dependencies` field is optional; `undefined` behaves exactly like the
empty list everywhere it is read, and is embedded as `[]`. -/
structure Operation where
  intent : Intent
  target : String
  description : String
  dependencies : List String
  priority : Int
deriving DecidableEq

inductive RelType where
  | link
  | imp
  | reference
deriving DecidableEq

/-- A cross-operation relationship recorded in the parse context. -/
structure Relationship where
  src : String
  dst : String
  rel : RelType
deriving DecidableEq

/-- The `context` component of a CompoundIntent. -/
structure CompoundContext where
  folder : Option String
  mainAction : Option String
  relationships : Option (List Relationship)
deriving DecidableEq

/-- Parse result for one user request. -/
structure CompoundIntent where
  operations : List Operation
  isCompound : Bool
  originalInput : String
  context : CompoundContext
deriving DecidableEq

/-! ### The regular expressions of compoundIntentRecognizer.ts -/

/-- `/(?:create|make|write|generate)\s+([^,]+?)\s+and\s+(?:modify|edit|update|change)\s+([^,]+)/i` -/
def compoundPat1 : RE := catsR [altsS ["create", "make", "write", "generate"], wsP,
  RE.grp 1 (plusL notComma), wsP, strR "and", wsP,
  altsS ["modify", "edit", "update", "change"], wsP, RE.grp 2 (plusG notComma)]

/-- `/in\s+(?:the\s+)?(\w+)\s+(?:folder\s+)?(?:create|make)\s+([^,]+?)\s+and\s+(?:modify|edit|update)\s+([^,]+)/i` -/
def compoundPat2 : RE := catsR [strR "in", wsP, optG (RE.cat (strR "the") wsP),
  RE.grp 1 (plusG wordC), wsP, optG (RE.cat (strR "folder") wsP),
  altsS ["create", "make"], wsP, RE.grp 2 (plusL notComma), wsP, strR "and", wsP,
  altsS ["modify", "edit", "update"], wsP, RE.grp 3 (plusG notComma)]

/-- `/(?:create|make|write)\s+([^,]+?),?\s*(?:then|and then)\s+(?:modify|edit|update)\s+([^,]+)/i` -/
def compoundPat3 : RE := catsR [altsS ["create", "make", "write"], wsP,
  RE.grp 1 (plusL notComma), optG (litC ','), starG wsC,
  altsS ["then", "and then"], wsP, altsS ["modify", "edit", "update"], wsP,
  RE.grp 2 (plusG notComma)]

/-- `/(?:create|make)\s+([^,]+?)\s+and\s+(?:connect|link)\s+(?:it\s+)?to\s+([^,]+)/i` -/
def compoundPat4 : RE := catsR [altsS ["create", "make"], wsP,
  RE.grp 1 (plusL notComma), wsP, strR "and", wsP, altsS ["connect", "link"], wsP,
  optG (RE.cat (strR "it") wsP), strR "to", wsP, RE.grp 2 (plusG notComma)]

def COMPOUND_PATTERNS : List RE := [compoundPat1, compoundPat2, compoundPat3, compoundPat4]

/-- `/(?:create|make)\s+(?:a\s+)?css\s+file.*?(?:and\s+)?(?:modify|edit|update)\s+.*?html.*?(?:connect|link)/i` -/
def cssHtmlPat1 : RE := catsR [altsS ["create", "make"], wsP, optG (RE.cat (strR "a") wsP),
  strR "css", wsP, strR "file", starL dotC, optG (RE.cat (strR "and") wsP),
  altsS ["modify", "edit", "update"], wsP, starL dotC, strR "html", starL dotC,
  altsS ["connect", "link"]]

/-- `/(?:create|make)\s+(?:a\s+)?(?:css|stylesheet).*?(?:and\s+)?(?:link|connect).*?(?:html|index)/i` -/
def cssHtmlPat2 : RE := catsR [altsS ["create", "make"], wsP, optG (RE.cat (strR "a") wsP),
  altsS ["css", "stylesheet"], starL dotC, optG (RE.cat (strR "and") wsP),
  altsS ["link", "connect"], starL dotC, altsS ["html", "index"]]

/-- `/in\s+(?:the\s+)?(\w+)\s+.*?(?:create|make)\s+(?:a\s+)?css\s+file.*?(?:modify|edit).*?html.*?(?:connect|link).*?css/i` -/
def cssHtmlPat3 : RE := catsR [strR "in", wsP, optG (RE.cat (strR "the") wsP),
  RE.grp 1 (plusG wordC), wsP, starL dotC, altsS ["create", "make"], wsP,
  optG (RE.cat (strR "a") wsP), strR "css", wsP, strR "file", starL dotC,
  altsS ["modify", "edit"], starL dotC, strR "html", starL dotC,
  altsS ["connect", "link"], starL dotC, strR "css"]

def CSS_HTML_LINKING_PATTERNS : List RE := [cssHtmlPat1, cssHtmlPat2, cssHtmlPat3]

/-- `/in\s+(?:the\s+)?(\w+)\s+(?:folder|directory)/i` (extractContext). -/
def folderContextRe : RE := catsR [strR "in", wsP, optG (RE.cat (strR "the") wsP),
  RE.grp 1 (plusG wordC), wsP, altsS ["folder", "directory"]]

/-- `/(create|make|modify|edit|update|write|generate)/i` (extractContext). -/
def actionContextRe : RE :=
  RE.grp 1 (altsS ["create", "make", "modify", "edit", "update", "write", "generate"])

/-- `/(?:with|do|add|include)\s+(?:some\s+)?([^.]+?)\s+styl/i` -/
def stylingPat1 : RE := catsR [altsS ["with", "do", "add", "include"], wsP,
  optG (RE.cat (strR "some") wsP), RE.grp 1 (plusL notDotC), wsP, strR "styl"]

/-- `/(?:colorful|modern|responsive|attractive|professional|gradient|hover)\s+(?:styling|design|effects)/i` -/
def stylingPat2 : RE := catsR
  [altsS ["colorful", "modern", "responsive", "attractive", "professional", "gradient", "hover"],
   wsP, altsS ["styling", "design", "effects"]]

/-- `/(\w+\.css)|css\s+file/i` -/
def fileNameCssRe : RE := RE.alt (RE.grp 1 (catsR [plusG wordC, litC '.', strR "css"]))
  (catsR [strR "css", wsP, strR "file"])

/-- `/(\w+\.html)|html\s+file/i` -/
def fileNameHtmlRe : RE := RE.alt (RE.grp 1 (catsR [plusG wordC, litC '.', strR "html"]))
  (catsR [strR "html", wsP, strR "file"])

/-- `/(\w+\.js)|javascript\s+file/i` -/
def fileNameJsRe : RE := RE.alt (RE.grp 1 (catsR [plusG wordC, litC '.', strR "js"]))
  (catsR [strR "javascript", wsP, strR "file"])

/-- `/[\w\/\.\-]+\.(ts|js|tsx|jsx|html|css|py|java|cpp|md|json)/i` (extractMainTarget). -/
def mainTargetFileRe : RE := catsR [plusG pathC, litC '.',
  RE.grp 1 (altsS ["ts", "js", "tsx", "jsx", "html", "css", "py", "java", "cpp", "md", "json"])]

/-- `/(?:folder|directory)\s+(?:called\s+)?(\w+)/i` (extractMainTarget). -/
def mainTargetFolderRe : RE := catsR [altsS ["folder", "directory"], wsP,
  optG (RE.cat (strR "called") wsP), RE.grp 1 (plusG wordC)]

/-- `/(?:create|make|write|generate).*?(?:file|folder)/i` (recognizeBasicIntent). -/
def basicWriteRe : RE := catsR [altsS ["create", "make", "write", "generate"], starL dotC,
  altsS ["file", "folder"]]

/-- `/(?:edit|modify|change|update|refactor|fix)/i` (recognizeBasicIntent). -/
def basicEditRe : RE := altsS ["edit", "modify", "change", "update", "refactor", "fix"]

/-- `/(?:move|rename|relocate)/i` (recognizeBasicIntent). -/
def basicMoveRe : RE := altsS ["move", "rename", "relocate"]

/-- `/(?:plan|design|implement)/i` (recognizeBasicIntent). -/
def basicPlanRe : RE := altsS ["plan", "design", "implement"]

/-! ### compoundIntentRecognizer.ts functions -/

/-- Detect if input contains multiple operations. -/
def detectCompoundRequest (input : String) : Bool :=
  COMPOUND_PATTERNS.any (fun p => reTest p input) ||
  CSS_HTML_LINKING_PATTERNS.any (fun p => reTest p input) ||
  (let actionVerbs := ["create", "make", "write", "generate", "modify", "edit", "update", "change"]
   let foundActions := actionVerbs.filter (fun verb => jsIncludes (jsLower input) verb)
   let hasCreateAction := foundActions.any (fun a => ["create", "make", "write", "generate"].contains a)
   let hasEditAction := foundActions.any (fun a => ["modify", "edit", "update", "change"].contains a)
   hasCreateAction && hasEditAction)

/-- Extract context information from input. -/
def extractContext (input : String) : CompoundContext :=
  { folder := reGroup folderContextRe 1 input
  , mainAction := (reGroup actionContextRe 1 input).map jsLower
  , relationships :=
      if jsIncludes input "connect" || jsIncludes input "link" then
        some [{ src := "css", dst := "html", rel := RelType.link }]
      else none }

/-- Extract styling description from input (`match[1] || match[0]`, with the
default when no pattern matches). -/
def extractStylingDescription (input : String) : String :=
  match reFind stylingPat1 input with
  | some (st, g, rest) =>
    match g.find? (fun p => p.1 == 1) with
    | some p =>
      if p.2 = [] then String.mk (st.take (st.length - rest.length)) else String.mk p.2
    | none => String.mk (st.take (st.length - rest.length))
  | none =>
    match reFind stylingPat2 input with
    | some (st, g, rest) =>
      match g.find? (fun p => p.1 == 1) with
      | some p =>
        if p.2 = [] then String.mk (st.take (st.length - rest.length)) else String.mk p.2
      | none => String.mk (st.take (st.length - rest.length))
    | none => "colorful and modern styling"

inductive FType where
  | css
  | html
  | js
deriving DecidableEq

/-- Extract filename from input based on type (`match && match[1]`). -/
def extractFileName (input : String) (t : FType) : Option String :=
  let re := match t with
    | FType.css => fileNameCssRe
    | FType.html => fileNameHtmlRe
    | FType.js => fileNameJsRe
  match reFind re input with
  | some (_, g, _) =>
    match g.find? (fun p => p.1 == 1) with
    | some p => if p.2 = [] then none else some (String.mk p.2)
    | none => none
  | none => none

/-- Parse CSS + HTML linking operations. -/
def parseCSSHTMLLinkingOperations (input : String) : List Operation :=
  let context := extractContext input
  let folder := context.folder.getD ""
  let stylingDescription := extractStylingDescription input
  let cssFileName := match extractFileName input FType.css with
    | some n => n
    | none => "styles.css"
  let cssPath := if folder = "" then cssFileName else folder ++ "/" ++ cssFileName
  let cssDescription := "Create a CSS file with " ++
    (if stylingDescription = "" then "modern, colorful styling for the webpage"
     else stylingDescription) ++
    ". Include responsive design, attractive colors, and professional styling."
  let htmlFileName := match extractFileName input FType.html with
    | some n => n
    | none => "index.html"
  let htmlPath := if folder = "" then htmlFileName else folder ++ "/" ++ htmlFileName
  let htmlDescription := "Modify the HTML file to link to the CSS file (" ++ cssFileName ++
    "). Remove any existing inline styles and replace with a proper CSS link in the <head> section."
  [ { intent := Intent.write, target := cssPath, description := cssDescription,
      priority := 1, dependencies := [] }
  , { intent := Intent.edit, target := htmlPath, description := htmlDescription,
      priority := 2, dependencies := [cssPath] } ]

/-- Parse general compound operations (the source returns an empty list). -/
def parseGeneralCompoundOperations (_input : String) : List Operation := []

/-- Parse compound operations from input. -/
def parseCompoundOperations (input : String) : List Operation :=
  if CSS_HTML_LINKING_PATTERNS.any (fun pattern => reTest pattern input) then
    parseCSSHTMLLinkingOperations input
  else
    parseGeneralCompoundOperations input

/-- Basic intent recognition (simplified version of existing logic). -/
def recognizeBasicIntent (input : String) : String :=
  let normalizedInput := jsLower (jsTrim input)
  if reTest basicWriteRe normalizedInput then "write"
  else if reTest basicEditRe normalizedInput then "edit"
  else if reTest basicMoveRe normalizedInput then "move"
  else if reTest basicPlanRe normalizedInput then "plan"
  else "ask"

/-- Extract main target from input. -/
def extractMainTarget (input : String) : String :=
  match reFind mainTargetFileRe input with
  | some (st, _, rest) => String.mk (st.take (st.length - rest.length))
  | none =>
    match reFind mainTargetFolderRe input with
    | some (_, g, _) => String.mk (((g.find? (fun p => p.1 == 1)).map (fun p => p.2)).getD [])
    | none => "unknown"

def strToIntent (s : String) : Intent :=
  if s = "write" then Intent.write
  else if s = "edit" then Intent.edit
  else if s = "move" then Intent.move
  else if s = "plan" then Intent.plan
  else Intent.ask

/-- Parse single operation (fallback); `ask` is not converted to an operation. -/
def parseSingleOperation (input : String) : Option Operation :=
  let intent := recognizeBasicIntent input
  if intent = "ask" then none
  else some { intent := strToIntent intent, target := extractMainTarget input,
              description := input, priority := 1, dependencies := [] }

/-- Stable insertion preserving the relative order of equal priorities. -/
def insertOpByPriority (x : Operation) : List Operation → List Operation
  | [] => [x]
  | y :: ys =>
    if y.priority ≤ x.priority then y :: insertOpByPriority x ys else x :: y :: ys

/-- A stable ascending sort by priority, as JS `Array.prototype.sort` with
the comparator `(a, b) => a.priority - b.priority`. -/
def sortByPriority (l : List Operation) : List Operation :=
  l.foldl (fun acc x => insertOpByPriority x acc) []

/-- Sort operations by dependencies and priority: create before edit. -/
def sortOperationsByDependencies (operations : List Operation) (_context : CompoundContext) :
    List Operation :=
  let writeOps := sortByPriority (operations.filter (fun op => op.intent == Intent.write))
  let editOps := sortByPriority (operations.filter (fun op => op.intent == Intent.edit))
  let otherOps := sortByPriority (operations.filter
    (fun op => op.intent != Intent.write && op.intent != Intent.edit))
  writeOps ++ editOps ++ otherOps

/-- Main compound intent recognition function. -/
def recognizeCompoundIntent (input : String) : CompoundIntent :=
  let isCompound := detectCompoundRequest input
  if isCompound = false then
    { operations := match parseSingleOperation input with
        | some op => [op]
        | none => []
    , isCompound := false
    , originalInput := input
    , context := extractContext input }
  else
    let operations := parseCompoundOperations input
    let context := extractContext input
    let sortedOperations := sortOperationsByDependencies operations context
    { operations := sortedOperations
    , isCompound := true
    , originalInput := input
    , context := context }

/-- Result of validateOperationSequence. -/
structure ValidationResult where
  isValid : Bool
  errors : List String
deriving DecidableEq

/-- Check if operations can be executed in sequence: for every operation,
every dependency whose producing operation in turn depends back on this
operation's target is reported as a circular dependency. -/
def validateOperationSequence (operations : List Operation) : ValidationResult :=
  let errors := operations.foldl (fun acc op =>
    op.dependencies.foldl (fun acc2 dep =>
      match operations.find? (fun o => o.target == dep) with
      | some depOp =>
        if depOp.dependencies.contains op.target then
          acc2 ++ ["Circular dependency detected between " ++ op.target ++ " and " ++ dep]
        else acc2
      | none => acc2) acc) []
  { isValid := errors.isEmpty, errors := errors }

/-! ### src/utils/intentRecognizer.ts -/

/-- One intent pattern group: structural patterns plus fallback keywords. -/
structure IntentPattern where
  intent : String
  patterns : List RE
  keywords : List String

/-- `(the\s+)?` followed by a path-like token, shared by the edit patterns. -/
def editTail : RE := catsR [wsP, optG (RE.grp 1 (RE.cat (strR "the") wsP)), plusG pathC]

def INTENT_PATTERNS : List IntentPattern :=
  [ { intent := "plan"
    , patterns :=
        [ catsR [strR "plan", wsP, RE.grp 1 (altsS ["a", "the", "this"]), wsP]
        , catsR [strR "create", wsP, RE.grp 1 (altsS ["a", "the"]), wsP, strR "plan"]
        , catsR [strR "design", wsP, RE.grp 1 (altsS ["a", "the"]), wsP]
        , catsR [strR "implement", wsP, RE.grp 1 (altsS ["a", "the"]), wsP]
        , catsR [strR "build", wsP, RE.grp 1 (altsS ["a", "the"]), wsP]
        , catsR [strR "develop", wsP, RE.grp 1 (altsS ["a", "the"]), wsP] ]
    , keywords := ["plan", "design", "implement", "build", "develop", "create plan", "strategy"] }
  , { intent := "edit"
    , patterns :=
        [ RE.cat (strR "edit") editTail
        , RE.cat (strR "modify") editTail
        , RE.cat (strR "change") editTail
        , RE.cat (strR "update") editTail
        , RE.cat (strR "refactor") editTail
        , RE.cat (strR "fix") editTail ]
    , keywords := ["edit", "modify", "change", "update", "refactor", "fix", "improve"] }
  , { intent := "write"
    , patterns :=
        [ catsR [strR "write", wsP, RE.grp 1 (altsS ["a", "the"]), wsP]
        , catsR [strR "create", wsP, RE.grp 1 (altsS ["a", "the"]), wsP, strR "file"]
        , catsR [strR "generate", wsP, RE.grp 1 (altsS ["a", "the"]), wsP]
        , catsR [strR "make", wsP, RE.grp 1 (altsS ["a", "the"]), wsP]
        , catsR [strR "add", wsP, RE.grp 1 (altsS ["a", "the"]), wsP, strR "new"] ]
    , keywords := ["write", "create", "generate", "make", "add", "new file"] }
  , { intent := "move"
    , patterns :=
        [ catsR [strR "move", wsP, plusG pathC]
        , catsR [strR "rename", wsP, plusG pathC]
        , catsR [strR "relocate", wsP, plusG pathC]
        , catsR [strR "reorganize", wsP] ]
    , keywords := ["move", "rename", "relocate", "reorganize", "restructure"] }
  , { intent := "ask"
    , patterns :=
        [ catsR [strR "explain", wsP]
        , catsR [strR "what", wsP, RE.grp 1 (altsS ["is", "are", "does"])]
        , catsR [strR "how", wsP, RE.grp 1 (altsS ["does", "do", "can"])]
        , catsR [strR "why", wsP]
        , catsR [strR "where", wsP, RE.grp 1 (altsS ["is", "are"])]
        , catsR [strR "tell", wsP, strR "me", wsP, strR "about"]
        , catsR [strR "show", wsP, strR "me"] ]
    , keywords := ["explain", "what", "how", "why", "where", "tell me", "show me", "help"] } ]

/-- Single-intent classifier: ordered structural patterns first, then
ordered keyword containment, defaulting to `ask`. -/
def recognizeIntent (input : String) : String :=
  let normalizedInput := jsLower (jsTrim input)
  match INTENT_PATTERNS.findSome? (fun ip =>
      if ip.patterns.any (fun pattern => reTest pattern normalizedInput) then some ip.intent
      else none) with
  | some i => i
  | none =>
    match INTENT_PATTERNS.findSome? (fun ip =>
        if ip.keywords.any (fun keyword => jsIncludes normalizedInput (jsLower keyword)) then
          some ip.intent
        else none) with
    | some i => i
    | none => "ask"

/-! ### src/utils/compoundOperationExecutor.ts

The executor's external collaborators are oracle parameters:

* `fs : String → Bool` is the `fileExists` check against the file system
  at the start of the run (the spec's `exists(path)` collaborator);
* `cmd : Cmd → Option String` models the four external command handlers:
  `none` means the dispatched handler returned normally, `some msg` means
  it threw an error with message `msg`.

The `trace` component of the embedded result is not a field of the
TypeScript `ExecutionResult`: it is instrumentation recording, in order,
every invocation of an external command handler performed by the run, so
that claims about which handlers are invoked (and with which synthesized
descriptions) can be stated.  Console output, spinners and the
`contextData` timestamps are not modelled. -/

/-- One invocation of an external command handler. -/
inductive Cmd where
  | writeCmd (target description : String)
  | editCmd (target description : String)
  | moveCmd (src dst : String)
  | planCmd (description : String)
deriving DecidableEq

/-- Mutable execution-scoped context. -/
structure ExecutionContext where
  createdFiles : List String
  modifiedFiles : List String
  contextData : List (String × Operation)
deriving DecidableEq

/-- Terminal summary of one run (plus the instrumentation trace). -/
structure ExecutionResult where
  success : Bool
  completedOperations : List Operation
  failedOperations : List (Operation × String)
  summary : String
  warnings : List String
  trace : List Cmd
deriving DecidableEq

/-- Check if operation dependencies are satisfied: each dependency must be
in `createdFiles`, in `modifiedFiles`, or exist on the file system. -/
def checkDependencies (fs : String → Bool) (operation : Operation)
    (context : ExecutionContext) : Bool × List String :=
  let missingDeps := operation.dependencies.filter (fun dep =>
    !(context.createdFiles.contains dep || context.modifiedFiles.contains dep || fs dep))
  (missingDeps.isEmpty, missingDeps)

/-- JS `cssFile.split('/').pop() || cssFile`. -/
def popSegment (s : String) : String :=
  let last := (jsSplitChar s '/').getLastD ""
  if last = "" then s else last

/-- The linking instruction synthesized by executeHTMLCSSLinking. -/
def linkingDescriptionFor (cssFileName : String) : String :=
  "Remove any existing inline styles from the <style> tags and replace with a link to the external CSS file \"" ++
  cssFileName ++
  "\". Add the CSS link in the <head> section as: <link rel=\"stylesheet\" href=\"" ++
  cssFileName ++ "\">. Keep all existing HTML structure intact."

/-- Special handler for HTML + CSS linking: find the first created file
ending in `.css`, extract its filename, and dispatch an edit with the
synthesized linking instruction.  Returns the thrown error (if any) and
the handler invocations performed. -/
def executeHTMLCSSLinking (cmd : Cmd → Option String) (operation : Operation)
    (context : ExecutionContext) : Option String × List Cmd :=
  match context.createdFiles.find? (fun file => jsEndsWith file ".css") with
  | none => (some "No CSS file found to link to HTML", [])
  | some cssFile =>
    let cssFileName := popSegment cssFile
    let linkingDescription := linkingDescriptionFor cssFileName
    let c := Cmd.editCmd operation.target linkingDescription
    (cmd c, [c])

/-- Execute write operation: dispatch the write handler and, on success,
record the target in `createdFiles`. -/
def executeWriteOperation (cmd : Cmd → Option String) (operation : Operation)
    (context : ExecutionContext) : Option String × List Cmd × ExecutionContext :=
  let c := Cmd.writeCmd operation.target operation.description
  match cmd c with
  | none => (none, [c],
      { context with createdFiles := context.createdFiles ++ [operation.target] })
  | some e => (some e, [c], context)

/-- Execute edit operation: the HTML + CSS special path is taken when the
compound context records a link relationship; on success the target is
recorded in `modifiedFiles`. -/
def executeEditOperation (cmd : Cmd → Option String) (operation : Operation)
    (context : ExecutionContext) (intentContext : CompoundContext) :
    Option String × List Cmd × ExecutionContext :=
  let useLinking := (intentContext.relationships.getD []).any
    (fun rel => rel.rel == RelType.link)
  let r :=
    if useLinking then executeHTMLCSSLinking cmd operation context
    else
      let c := Cmd.editCmd operation.target operation.description
      (cmd c, [c])
  match r.1 with
  | none => (none, r.2,
      { context with modifiedFiles := context.modifiedFiles ++ [operation.target] })
  | some e => (some e, r.2, context)

/-- Execute move operation: the target must be a "source dest" pair. -/
def executeMoveOperation (cmd : Cmd → Option String) (operation : Operation)
    (context : ExecutionContext) : Option String × List Cmd × ExecutionContext :=
  match jsSplitChar operation.target ' ' with
  | [a, b] =>
    let c := Cmd.moveCmd a b
    (cmd c, [c], context)
  | _ => (some "Move operation requires source and destination", [], context)

/-- Execute plan operation. -/
def executePlanOperation (cmd : Cmd → Option String) (operation : Operation)
    (context : ExecutionContext) : Option String × List Cmd × ExecutionContext :=
  let c := Cmd.planCmd operation.description
  (cmd c, [c], context)

/-- Execute a single operation; the default branch of the source switch
rejects `ask` as unsupported. -/
def executeOperation (cmd : Cmd → Option String) (operation : Operation)
    (context : ExecutionContext) (intentContext : CompoundContext) :
    Option String × List Cmd × ExecutionContext :=
  match operation.intent with
  | Intent.write => executeWriteOperation cmd operation context
  | Intent.edit => executeEditOperation cmd operation context intentContext
  | Intent.move => executeMoveOperation cmd operation context
  | Intent.plan => executePlanOperation cmd operation context
  | Intent.ask => (some "Unsupported operation: ask", [], context)

/-- Store the operation result in the context map for future operations. -/
def updateExecutionContext (context : ExecutionContext) (operation : Operation) :
    ExecutionContext :=
  { context with contextData :=
      (operation.target, operation) ::
        context.contextData.filter (fun p => p.1 ≠ operation.target) }

/-- Check if a failure should block remaining operations: true when any
operation of the whole list declares a dependency on the failed target. -/
def isBlockingFailure (failedOperation : Operation) (allOperations : List Operation) : Bool :=
  allOperations.any (fun op => op.dependencies.contains failedOperation.target)

/-- Accumulated state of the execution loop. -/
structure ExecState where
  success : Bool
  completed : List Operation
  failed : List (Operation × String)
  warnings : List String
  trace : List Cmd
  ctx : ExecutionContext
deriving DecidableEq

/-- One step of executeCompoundIntent's loop: the dependency check
followed, when satisfied, by the dispatch of the operation; an unmet
dependency fails the step immediately with the "Dependencies not
satisfied" error and no handler invocation. -/
def execStep (fs : String → Bool) (cmd : Cmd → Option String)
    (intentContext : CompoundContext) (operation : Operation) (ctx : ExecutionContext) :
    Option String × List Cmd × ExecutionContext :=
  let depCheck := checkDependencies fs operation ctx
  if depCheck.1 then executeOperation cmd operation ctx intentContext
  else (some ("Dependencies not satisfied: " ++ joinSep ", " depCheck.2), [], ctx)

/-- The loop of executeCompoundIntent: per-operation dependency check,
dispatch, context update, and the blocking / non-blocking failure
decision.  `i` is the zero-based step index used in warning texts. -/
def execLoop (fs : String → Bool) (cmd : Cmd → Option String)
    (intentContext : CompoundContext) (allOperations : List Operation) :
    List Operation → Nat → ExecState → ExecState
  | [], _, st => st
  | operation :: rest, i, st =>
    match execStep fs cmd intentContext operation st.ctx with
    | (none, tr, ctx2) =>
      execLoop fs cmd intentContext allOperations rest (i + 1)
        { st with completed := st.completed ++ [operation]
                , trace := st.trace ++ tr
                , ctx := updateExecutionContext ctx2 operation }
    | (some e, tr, _) =>
      let errorMsg := if e = "" then "Operation failed" else e
      let st2 := { st with failed := st.failed ++ [(operation, errorMsg)]
                         , success := false
                         , trace := st.trace ++ tr }
      if isBlockingFailure operation allOperations then st2
      else
        execLoop fs cmd intentContext allOperations rest (i + 1)
          { st2 with warnings := st2.warnings ++
              ["Step " ++ toString (i + 1) ++ " failed but continuing: " ++ errorMsg] }

/-- Icon used by the summary for a completed operation. -/
def opIcon (op : Operation) : String :=
  if op.intent == Intent.write then "📝"
  else if op.intent == Intent.edit then "✏️"
  else "🔧"

/-- Generate execution summary. -/
def generateExecutionSummary (success : Bool) (completedOperations : List Operation)
    (failedOperations : List (Operation × String)) (warnings : List String)
    (totalOperations : Nat) : String :=
  let s1 := "\n🎯 Execution Summary:\n   ✅ Completed: " ++
    toString completedOperations.length ++ "/" ++ toString totalOperations ++ " operations\n"
  let s2 := if failedOperations.length > 0 then
    "   ❌ Failed: " ++ toString failedOperations.length ++ " operations\n" else ""
  let s3 := if warnings.length > 0 then
    "   ⚠️  Warnings: " ++ toString warnings.length ++ "\n" else ""
  let s4 := if completedOperations.length > 0 then
    "\n📄 Created/Modified Files:\n" ++
      String.join (completedOperations.map (fun op => "   " ++ opIcon op ++ " " ++ op.target ++ "\n"))
    else ""
  let s5 := if success then "\n🎉 All operations completed successfully!"
    else "\n⚠️  Some operations failed, but others completed successfully."
  s1 ++ s2 ++ s3 ++ s4 ++ s5

/-- Main execution function for compound operations. -/
def executeCompoundIntent (fs : String → Bool) (cmd : Cmd → Option String)
    (compoundIntent : CompoundIntent) : ExecutionResult :=
  let st0 : ExecState :=
    { success := true, completed := [], failed := [], warnings := [], trace := []
    , ctx := { createdFiles := [], modifiedFiles := [], contextData := [] } }
  let st := execLoop fs cmd compoundIntent.context compoundIntent.operations
    compoundIntent.operations 0 st0
  { success := st.success
  , completedOperations := st.completed
  , failedOperations := st.failed
  , summary := generateExecutionSummary st.success st.completed st.failed st.warnings
      compoundIntent.operations.length
  , warnings := st.warnings
  , trace := st.trace }

/-! ### src/llm/router.ts

The router's numbers (indicator weights, complexity, confidence,
thresholds) are embedded as exact rationals; every constant in the source
is a small decimal and every operation is addition, multiplication,
division, `min`/`max` and comparison, all exact here.  Rationals are
represented as unreduced numerator/denominator pairs with comparisons by
cross multiplication (value semantics, as JS compares numbers by value);
this keeps every operation computable by the proof kernel.  The model
profile table (names, endpoints, temperatures, token budgets) and the
inference calls are the spec's external collaborators and are not
consulted by classification or selection; they are omitted.  `reasoning`
strings are diagnostic only (not used for control flow) and are not
modelled. -/

/-- An exact rational: integer numerator over a positive natural
denominator, not necessarily in lowest terms. -/
structure Q where
  num : Int
  den : Nat
deriving DecidableEq

/-- Shorthand for a rational constant. -/
def q (n : Int) (d : Nat) : Q := { num := n, den := d }

def Q.ofNat (n : Nat) : Q := { num := (n : Int), den := 1 }

def qadd (a b : Q) : Q :=
  { num := a.num * (b.den : Int) + b.num * (a.den : Int), den := a.den * b.den }

def qmul (a b : Q) : Q := { num := a.num * b.num, den := a.den * b.den }

/-- Division; the sources guard every division by a positivity check, so
the divisor is never zero where this is applied. -/
def qdiv (a b : Q) : Q :=
  if b.num = 0 then { num := 0, den := 1 }
  else if 0 ≤ b.num then { num := a.num * (b.den : Int), den := a.den * b.num.natAbs }
  else { num := -(a.num * (b.den : Int)), den := a.den * b.num.natAbs }

/-- Value comparison by cross multiplication. -/
def qle (a b : Q) : Bool := decide (a.num * (b.den : Int) ≤ b.num * (a.den : Int))

def qlt (a b : Q) : Bool := decide (a.num * (b.den : Int) < b.num * (a.den : Int))

/-- Value equality (JS `===` on numbers). -/
def qeq (a b : Q) : Bool := a.num * (b.den : Int) == b.num * (a.den : Int)

def qmin (a b : Q) : Q := if qle a b then a else b

def qmax (a b : Q) : Q := if qle a b then b else a

instance : LT Q := ⟨fun a b => qlt a b = true⟩

instance (a b : Q) : Decidable (a < b) :=
  inferInstanceAs (Decidable (qlt a b = true))

/-- The four configured model profile keys, in the declaration order of the
models object (`Object.keys`). -/
inductive ModelKey where
  | code
  | analysis
  | creative
  | fallback
deriving DecidableEq

def allModels : List ModelKey := [ModelKey.code, ModelKey.analysis, ModelKey.creative, ModelKey.fallback]

/-- The `qwen_specific` routing block; optional TS fields are `Option`. -/
structure QwenSpecific where
  use_thinking_for_compound : Bool
  thinking_threshold_complexity : Q
  favor_analysis_model : Option Bool
  analysis_weight_multiplier : Option Q
  question_detection_boost : Option Q
  code_model_file_types : List String
  analysis_model_operations : List String
  force_analysis_for_compound : Bool
  force_analysis_for_questions : Option Bool
deriving DecidableEq

/-- The routing policy block of the configuration. -/
structure RoutingConfig where
  defaultModel : ModelKey
  auto_detect : Bool
  confidence_threshold : Q
  enable_performance_tracking : Bool
  enable_health_checks : Bool
  qwen_specific : Option QwenSpecific
deriving DecidableEq

/-- The multi-model configuration (the model profile table is an external
collaborator and carries no data read by classification). -/
structure MultiModelConfig where
  routing : RoutingConfig
deriving DecidableEq

/-- User preferences; only the fields read by classification and selection
carry data used here. -/
structure UserPreferences where
  defaultModel : Option ModelKey
  fileExtensionOverrides : Option (List (String × ModelKey))
  alwaysShowReasoning : Option Bool
  enableHealthChecks : Option Bool
  preferCodeModel : Option Bool
  enableThinkingMode : Option Bool
deriving DecidableEq

/-- Category labels of a classification. -/
inductive CType where
  | code
  | analysis
  | creative
  | mixed
  | compound
deriving DecidableEq

/-- Output of the content classifier; TS-optional fields are `Option` and
are absent (`none`) on the early-return paths exactly as in the source. -/
structure ContentClassification where
  type : CType
  confidence : Q
  suggestedModel : ModelKey
  fileExtensionBonus : Option Bool
  userOverride : Option Bool
  isCompound : Option Bool
  complexity : Option Q
  requiresThinking : Option Bool
deriving DecidableEq

inductive OverrideType where
  | user
  | extension
  | auto
  | dflt
deriving DecidableEq

/-- Output of selectModel (alternatives carry model and score). -/
structure ModelSelectionResult where
  selectedModel : ModelKey
  confidence : Q
  override : OverrideType
  alternatives : List (ModelKey × Q)
deriving DecidableEq

def CREATIVE_INDICATORS : List String :=
  ["song", "poem", "story", "joke", "haiku", "lyrics", "creative",
   "funny", "humor", "narrative", "tale", "adventure", "fantasy",
   "comedy", "romance", "mystery", "drama", "character", "dialogue",
   "plot", "write a song", "write a poem", "tell me a story"]

def CODE_INDICATORS : List String :=
  ["function", "class", "component", "script", "algorithm",
   "method", "implementation", "interface", "module", "library",
   "framework", "database", "query", "endpoint", "service", "debug",
   "refactor", "optimize", "bug", "error", "compile", "syntax",
   "variable", "parameter", "return", "import", "export", "edit file",
   "create file", "write file", "modify code", "fix code", "generate code",
   "typescript", "javascript", "python", "react", "vue", "angular"]

def ANALYSIS_INDICATORS : List String :=
  ["documentation", "readme", "guide", "tutorial", "manual",
   "explanation", "how-to", "instructions", "overview", "summary",
   "describe", "explain", "what is", "how does", "why does", "purpose of",
   "what are", "how can", "what do", "tell me", "help me understand",
   "can you explain", "walk me through", "break down", "clarify",
   "elaborate", "define", "meaning of", "difference between", "compare",
   "contrast", "pros and cons", "advantages", "disadvantages",
   "analyze", "analysis", "architecture", "design", "strategy",
   "planning", "requirements", "complex reasoning", "understand",
   "comprehensive", "deep dive", "investigate", "research", "review",
   "assess", "evaluate", "examine", "study", "inspect", "audit",
   "critique", "feedback", "recommendation", "suggest", "advice",
   "best practices", "optimization", "improvement", "enhancement",
   "what can you do", "capabilities", "features", "abilities", "skills",
   "help with", "assist with", "support", "what do you know",
   "can you help", "are you able", "do you support", "how good are you",
   "solve", "solution", "approach", "methodology", "process",
   "steps", "workflow", "procedure", "logic", "reasoning",
   "think through", "work through", "figure out", "determine"]

def COMPOUND_INDICATORS : List String :=
  ["and then", "and also", "create and", "make and", "write and",
   "first create", "then modify", "connect to", "link to",
   "multiple", "both", "all of", "several", "compound operation"]

def FILE_EXTENSION_MAP : List (String × ModelKey) :=
  [(".js", ModelKey.code), (".ts", ModelKey.code), (".jsx", ModelKey.code), (".tsx", ModelKey.code),
   (".py", ModelKey.code), (".java", ModelKey.code), (".cpp", ModelKey.code), (".c", ModelKey.code),
   (".cs", ModelKey.code), (".go", ModelKey.code), (".rs", ModelKey.code), (".php", ModelKey.code),
   (".rb", ModelKey.code), (".swift", ModelKey.code), (".kt", ModelKey.code), (".scala", ModelKey.code),
   (".html", ModelKey.code), (".css", ModelKey.code), (".scss", ModelKey.code), (".sass", ModelKey.code),
   (".json", ModelKey.code), (".xml", ModelKey.code), (".yaml", ModelKey.code), (".yml", ModelKey.code),
   (".sql", ModelKey.code), (".sh", ModelKey.code), (".bash", ModelKey.code), (".zsh", ModelKey.code),
   (".dockerfile", ModelKey.code), (".makefile", ModelKey.code), (".toml", ModelKey.code),
   (".lock", ModelKey.code), (".gitignore", ModelKey.code), (".env", ModelKey.code),
   (".md", ModelKey.analysis), (".txt", ModelKey.analysis), (".rst", ModelKey.analysis),
   (".adoc", ModelKey.analysis), (".wiki", ModelKey.analysis), (".doc", ModelKey.analysis),
   (".poem", ModelKey.creative), (".story", ModelKey.creative), (".lyrics", ModelKey.creative),
   (".creative", ModelKey.creative)]

/-- The default configuration built by getDefaultConfig (routing block). -/
def getDefaultConfig : MultiModelConfig :=
  { routing :=
    { defaultModel := ModelKey.analysis
    , auto_detect := true
    , confidence_threshold := q 6 10
    , enable_performance_tracking := true
    , enable_health_checks := true
    , qwen_specific := some (
      { use_thinking_for_compound := true
      , thinking_threshold_complexity := q 5 10
      , favor_analysis_model := some true
      , analysis_weight_multiplier := some (q 3 1)
      , question_detection_boost := some (q 2 1)
      , code_model_file_types := [".ts", ".js", ".tsx", ".jsx", ".py", ".go", ".rs", ".html", ".css"]
      , analysis_model_operations := ["compound_planning", "architecture_analysis", "system_design",
          "explanations", "questions", "capabilities"]
      , force_analysis_for_compound := true
      , force_analysis_for_questions := some true } : QwenSpecific) } }

/-- The preferences object returned by loadUserPreferences when no
preference file exists. -/
def defaultUserPreferences : UserPreferences :=
  { defaultModel := none
  , fileExtensionOverrides := none
  , alwaysShowReasoning := some false
  , enableHealthChecks := some true
  , preferCodeModel := some true
  , enableThinkingMode := some false }

/-- JS `optionalNumber || d`: `undefined` and `0` both fall back. -/
def orQ (o : Option Q) (d : Q) : Q :=
  match o with
  | some v => if qeq v (q 0 1) then d else v
  | none => d

/-- Sum of a list of rationals. -/
def sumQ (l : List Q) : Q := l.foldl (fun a b => qadd a b) (q 0 1)

/-- Derived complexity score of a prompt (calculateComplexity). -/
def calculateComplexity (prompt : String) : Q :=
  let lowerPrompt := jsLower prompt
  let c1 : Q := qmin (qdiv (Q.ofNat prompt.length) (q 500 1)) (q 3 10)
  let operationWords := ["create", "edit", "modify", "generate", "analyze", "connect", "link"]
  let operationCount := (operationWords.filter (fun word => jsIncludes lowerPrompt word)).length
  let c2 : Q := qmin (qmul (Q.ofNat operationCount) (q 15 100)) (q 4 10)
  let complexWords := ["architecture", "system", "design", "integration", "dependency", "compound"]
  let complexCount := (complexWords.filter (fun word => jsIncludes lowerPrompt word)).length
  let c3 : Q := qmin (qmul (Q.ofNat complexCount) (q 1 10)) (q 3 10)
  let conjunctions := [" and ", " then ", " also ", " both ", " multiple "]
  let conjunctionCount := (conjunctions.filter (fun conj => jsIncludes lowerPrompt conj)).length
  let c4 : Q := qmin (qmul (Q.ofNat conjunctionCount) (q 1 10)) (q 2 10)
  qmin (qadd (qadd (qadd c1 c2) c3) c4) (q 1 1)

/-- Whether thinking mode is required (shouldUseThinking). -/
def shouldUseThinking (config : MultiModelConfig) (prompt : String) (complexity : Q)
    (isCompound : Option Bool) : Bool :=
  match config.routing.qwen_specific with
  | none => false
  | some qc =>
    if isCompound.getD false && qc.use_thinking_for_compound then true
    else if qle qc.thinking_threshold_complexity complexity then true
    else qc.analysis_model_operations.any (fun op => jsIncludes (jsLower prompt) op)

def mapModelToType : ModelKey → CType
  | ModelKey.creative => CType.creative
  | ModelKey.analysis => CType.analysis
  | ModelKey.code => CType.code
  | ModelKey.fallback => CType.code

/-- Weight of one creative indicator hit. -/
def creativeWeight (indicator : String) : Q :=
  if jsIncludes indicator "write a" || jsIncludes indicator "tell me" then q 2 1 else q 1 1

/-- Weight of one code indicator hit. -/
def codeWeight (indicator : String) : Q :=
  if jsIncludes indicator "debug" || jsIncludes indicator "error" ||
     jsIncludes indicator "implement" then q 2 1 else q 1 1

/-- Weight of one analysis indicator hit. -/
def analysisWeight (questionBoost analysisMultiplier : Q) (indicator : String) : Q :=
  if jsIncludes indicator "analyze" || jsIncludes indicator "explain" ||
     jsIncludes indicator "what is" || jsIncludes indicator "tell me" ||
     jsIncludes indicator "what can" || jsIncludes indicator "what do" then
    qmul questionBoost (q 2 1)
  else if jsIncludes indicator "architecture" || jsIncludes indicator "review" ||
          jsIncludes indicator "assess" then analysisMultiplier
  else qmul analysisMultiplier (q 7 10)

/-- Content classifier (EnhancedModelRouter.classifyContent). -/
def classifyContent (config : MultiModelConfig) (userPreferences : UserPreferences)
    (prompt : String) (fileExtension : Option String) (userOverride : Option ModelKey)
    (isCompound : Option Bool) : ContentClassification :=
  let lowerPrompt := jsLower prompt
  let complexity := calculateComplexity prompt
  let requiresThinking := shouldUseThinking config prompt complexity isCompound
  match userOverride with
  | some uo =>
    { type := mapModelToType uo
    , confidence := q 1 1
    , suggestedModel := uo
    , fileExtensionBonus := none
    , userOverride := some true
    , isCompound := some (isCompound.getD false)
    , complexity := some complexity
    , requiresThinking := some requiresThinking }
  | none =>
  let extStr := fileExtension.getD ""
  let extOn := extStr ≠ ""
  match (if extOn then (userPreferences.fileExtensionOverrides.getD []).find?
      (fun p => p.1 == extStr) else none) with
  | some pref =>
    { type := if pref.2 == ModelKey.creative then CType.creative else CType.code
    , confidence := q 9 10
    , suggestedModel := pref.2
    , fileExtensionBonus := none
    , userOverride := some true
    , isCompound := none
    , complexity := none
    , requiresThinking := none }
  | none =>
    let qc := config.routing.qwen_specific
    let analysisMultiplier := orQ (qc.bind (fun c => c.analysis_weight_multiplier)) (q 3 1)
    let questionBoost := orQ (qc.bind (fun c => c.question_detection_boost)) (q 2 1)
    let creativeScore0 := sumQ (CREATIVE_INDICATORS.map (fun indicator =>
      if jsIncludes lowerPrompt indicator then creativeWeight indicator else q 0 1))
    let codeScore0 := sumQ (CODE_INDICATORS.map (fun indicator =>
      if jsIncludes lowerPrompt indicator then codeWeight indicator else q 0 1))
    let analysisScore0 := sumQ (ANALYSIS_INDICATORS.map (fun indicator =>
      if jsIncludes lowerPrompt indicator then
        analysisWeight questionBoost analysisMultiplier indicator
      else q 0 1))
    let compoundScore0 := sumQ (COMPOUND_INDICATORS.map (fun indicator =>
      if jsIncludes lowerPrompt indicator then q 2 1 else q 0 1))
    let compoundScore := if isCompound.getD false then qadd compoundScore0 (q 5 1)
      else compoundScore0
    let mapped := if extOn then
        (FILE_EXTENSION_MAP.find? (fun p => p.1 == jsLower extStr)).map (fun p => p.2)
      else none
    let fileExtensionBonus := extOn && mapped.isSome
    let creativeScore := qadd creativeScore0
      (if mapped == some ModelKey.creative then q 3 1 else q 0 1)
    let codeScore := qadd (qadd codeScore0
        (if mapped == some ModelKey.code then q 4 1 else q 0 1))
      (if extOn && (match qc with
          | some c => c.code_model_file_types.contains (jsLower extStr)
          | none => false) then q 2 1 else q 0 1)
    let analysisScore := qadd analysisScore0
      (if mapped == some ModelKey.analysis then q 3 1 else q 0 1)
    let maxScore := qmax (qmax creativeScore codeScore) (qmax analysisScore compoundScore)
    let totalScore := qadd (qadd (qadd creativeScore codeScore) analysisScore) compoundScore
    let forceCompound := isCompound.getD false &&
      (match qc with | some c => c.force_analysis_for_compound | none => false) &&
      requiresThinking
    let tsm : CType × ModelKey :=
      if forceCompound then (CType.compound, ModelKey.analysis)
      else if qeq totalScore (q 0 1) then
        (CType.analysis, userPreferences.defaultModel.getD config.routing.defaultModel)
      else if qeq compoundScore maxScore && qlt (q 0 1) compoundScore then
        (CType.compound, if requiresThinking then ModelKey.analysis else ModelKey.code)
      else if qeq creativeScore maxScore && qlt (q 0 1) creativeScore then
        (CType.creative, ModelKey.creative)
      else if qeq codeScore maxScore then (CType.code, ModelKey.code)
      else if qeq analysisScore maxScore then (CType.analysis, ModelKey.analysis)
      else
        (CType.mixed,
          if (match qc with | some c => c.favor_analysis_model.getD false | none => false) &&
             qlt (q 0 1) analysisScore then ModelKey.analysis
          else if qlt (q 7 10) complexity then ModelKey.analysis else ModelKey.code)
    let confidence := if qlt (q 0 1) totalScore then qdiv maxScore totalScore else q 5 10
    { type := tsm.1
    , confidence := confidence
    , suggestedModel := tsm.2
    , fileExtensionBonus := some fileExtensionBonus
    , userOverride := some false
    , isCompound := isCompound
    , complexity := some complexity
    , requiresThinking := some requiresThinking }

/-- Stable insertion for the descending sort of alternatives. -/
def insertAltDesc (x : ModelKey × Q) : List (ModelKey × Q) → List (ModelKey × Q)
  | [] => [x]
  | y :: ys => if qle x.2 y.2 then y :: insertAltDesc x ys else x :: y :: ys

def sortAltsDesc (l : List (ModelKey × Q)) : List (ModelKey × Q) :=
  l.foldl (fun acc x => insertAltDesc x acc) []

/-- Model selection (EnhancedModelRouter.selectModel): classify, apply the
override chain, and compute the top-two alternatives. -/
def selectModel (config : MultiModelConfig) (userPreferences : UserPreferences)
    (prompt : String) (fileExtension : Option String) (forceModel : Option ModelKey)
    (isCompound : Option Bool) : ModelSelectionResult :=
  let classification := classifyContent config userPreferences prompt fileExtension
    forceModel isCompound
  let sel : ModelKey × OverrideType :=
    match forceModel with
    | some fm => (fm, OverrideType.user)
    | none =>
      if classification.userOverride.getD false then
        (classification.suggestedModel, OverrideType.user)
      else if classification.fileExtensionBonus.getD false then
        (classification.suggestedModel, OverrideType.extension)
      else if qlt classification.confidence config.routing.confidence_threshold then
        (userPreferences.defaultModel.getD config.routing.defaultModel, OverrideType.dflt)
      else (classification.suggestedModel, OverrideType.auto)
  let alternatives := (allModels.filter (fun m => m != sel.1)).map (fun m =>
    (m, (classifyContent config userPreferences prompt fileExtension (some m) none).confidence))
  { selectedModel := sel.1
  , confidence := classification.confidence
  , override := sel.2
  , alternatives := (sortAltsDesc alternatives).take 2 }

/-- Performance telemetry entry (`lastUsed` timestamps are not modelled). -/
structure ModelPerformance where
  totalRequests : Nat
  successfulRequests : Nat
  averageResponseTime : Q
  successRate : Q
deriving DecidableEq

inductive HealthState where
  | healthy
  | degraded
  | unavailable
  | unknown
deriving DecidableEq

/-- Health telemetry entry (`lastChecked` timestamps are not modelled). -/
structure ModelHealth where
  status : HealthState
  responseTime : Option Q
  errorRate : Option Q
  lastError : Option String
deriving DecidableEq

/-- The state of an EnhancedModelRouter instance: configuration, user
preferences, and the process-lifetime telemetry maps. -/
structure EnhancedModelRouter where
  config : MultiModelConfig
  userPreferences : UserPreferences
  performanceTracker : List (String × ModelPerformance)
  healthStatus : List (String × ModelHealth)

/-- Method view of classifyContent on a router instance: the source method
reads only `this.config` and `this.userPreferences` and writes nothing. -/
def EnhancedModelRouter.classifyContent (router : EnhancedModelRouter) (prompt : String)
    (fileExtension : Option String) (userOverride : Option ModelKey)
    (isCompound : Option Bool) : ContentClassification :=
  CodeAgent.classifyContent router.config router.userPreferences prompt fileExtension
    userOverride isCompound

/-- Method view of selectModel on a router instance. -/
def EnhancedModelRouter.selectModel (router : EnhancedModelRouter) (prompt : String)
    (fileExtension : Option String) (forceModel : Option ModelKey)
    (isCompound : Option Bool) : ModelSelectionResult :=
  CodeAgent.selectModel router.config router.userPreferences prompt fileExtension
    forceModel isCompound

/-! ### Invariants of the execution loop -/

/-- The loop preserves "success holds exactly when no failure was
recorded": failures are appended together with clearing the flag, and no
branch restores the flag or removes a failure. -/
theorem execLoop_success_iff (fs : String → Bool) (cmd : Cmd → Option String)
    (intentContext : CompoundContext) (allOperations : List Operation) :
    ∀ (ops : List Operation) (i : Nat) (st : ExecState),
      (st.success = true ↔ st.failed = []) →
      ((execLoop fs cmd intentContext allOperations ops i st).success = true ↔
        (execLoop fs cmd intentContext allOperations ops i st).failed = []) := by
  intro ops
  induction ops with
  | nil => intro i st h; simpa [execLoop] using h
  | cons op rest ih =>
    intro i st h
    rcases hstep : execStep fs cmd intentContext op st.ctx with ⟨err, tr, ctx2⟩
    cases err with
    | none =>
      simp only [execLoop, hstep]
      exact ih (i + 1) _ (by simpa using h)
    | some e =>
      simp only [execLoop, hstep]
      split
      · simp
      · exact ih (i + 1) _ (by simp)

/-- The operations recorded by the loop as completed or failed are, as a
multiset, contained in the starting record extended by the operations fed
to the loop: each processed operation lands in exactly one of the two
lists, and aborting only drops operations. -/
theorem execLoop_multiset_le (fs : String → Bool) (cmd : Cmd → Option String)
    (intentContext : CompoundContext) (allOperations : List Operation) :
    ∀ (ops : List Operation) (i : Nat) (st : ExecState),
      (((execLoop fs cmd intentContext allOperations ops i st).completed ++
          (execLoop fs cmd intentContext allOperations ops i st).failed.map Prod.fst :
          List Operation) : Multiset Operation) ≤
        ((st.completed ++ st.failed.map Prod.fst : List Operation) : Multiset Operation) +
          (ops : Multiset Operation) := by
  intro ops
  induction ops with
  | nil => intro i st; simp [execLoop]
  | cons op rest ih =>
    intro i st
    rcases hstep : execStep fs cmd intentContext op st.ctx with ⟨err, tr, ctx2⟩
    cases err with
    | none =>
      simp only [execLoop, hstep]
      refine le_trans (ih (i + 1) _) (le_of_eq ?_)
      simp only [ExecState.completed, ExecState.failed]
      rw [List.append_assoc st.completed [op] (List.map Prod.fst st.failed),
        List.singleton_append, Multiset.coe_add, Multiset.coe_add, Multiset.coe_eq_coe]
      exact (List.perm_middle.append_right rest).trans List.perm_middle.symm
    | some e =>
      simp only [execLoop, hstep]
      split
      · simp only [ExecState.completed, ExecState.failed]
        rw [List.map_append, List.map_cons, List.map_nil,
          ← List.append_assoc st.completed (List.map Prod.fst st.failed) [op],
          Multiset.coe_add]
        rw [show ((st.completed ++ List.map Prod.fst st.failed) ++ (op :: rest) : List Operation) =
          ((st.completed ++ List.map Prod.fst st.failed) ++ [op]) ++ rest by
            simp [List.append_assoc]]
        exact Multiset.coe_le.mpr (List.sublist_append_left _ rest).subperm
      · refine le_trans (ih (i + 1) _) (le_of_eq ?_)
        simp only [ExecState.completed, ExecState.failed]
        rw [List.map_append, List.map_cons, List.map_nil,
          ← List.append_assoc st.completed (List.map Prod.fst st.failed) [op],
          Multiset.coe_add, Multiset.coe_add, Multiset.coe_eq_coe,
          List.append_assoc (st.completed ++ List.map Prod.fst st.failed) [op] rest,
          List.singleton_append]

/-! ### Claims C3 and C10: result invariants of executeCompoundIntent -/

/-- C3: for every CompoundIntent (and every behavior of the file-existence
check and of the external command handlers), the ExecutionResult returned
by executeCompoundIntent has success = true if and only if its
failedOperations list is empty. -/
theorem c3_success_iff_no_failed_operations (fs : String → Bool) (cmd : Cmd → Option String)
    (compoundIntent : CompoundIntent) :
    (executeCompoundIntent fs cmd compoundIntent).success = true ↔
      (executeCompoundIntent fs cmd compoundIntent).failedOperations = [] := by
  simp only [executeCompoundIntent]
  exact execLoop_success_iff fs cmd compoundIntent.context compoundIntent.operations
    compoundIntent.operations 0 _ (by simp)

/-- C10: for every CompoundIntent, the completed and failed operations of
the ExecutionResult are jointly a sub-multiset of the input operations
(each input occurrence lands in at most one of the two lists, at most
once), so their combined length never exceeds the input length. -/
theorem c10_completed_failed_subperm_of_input (fs : String → Bool) (cmd : Cmd → Option String)
    (compoundIntent : CompoundIntent) :
    List.Subperm
      ((executeCompoundIntent fs cmd compoundIntent).completedOperations ++
        (executeCompoundIntent fs cmd compoundIntent).failedOperations.map Prod.fst)
      compoundIntent.operations ∧
    (executeCompoundIntent fs cmd compoundIntent).completedOperations.length +
        (executeCompoundIntent fs cmd compoundIntent).failedOperations.length ≤
      compoundIntent.operations.length := by
  have h : List.Subperm
      ((executeCompoundIntent fs cmd compoundIntent).completedOperations ++
        (executeCompoundIntent fs cmd compoundIntent).failedOperations.map Prod.fst)
      compoundIntent.operations := by
    simp only [executeCompoundIntent]
    have h0 := execLoop_multiset_le fs cmd compoundIntent.context compoundIntent.operations
      compoundIntent.operations 0
      { success := true, completed := [], failed := [], warnings := [], trace := []
      , ctx := { createdFiles := [], modifiedFiles := [], contextData := [] } }
    simp only [List.map_nil, List.append_nil, Multiset.coe_nil, zero_add] at h0
    exact Multiset.coe_le.mp h0
  refine ⟨h, ?_⟩
  have hlen := h.length_le
  simpa using hlen

/-! ### Claim C7: the dependency resolver's write-before-edit ordering -/

theorem mem_insertOpByPriority (x y : Operation) : ∀ (l : List Operation),
    (y ∈ insertOpByPriority x l ↔ y = x ∨ y ∈ l)
  | [] => by simp [insertOpByPriority]
  | a :: t => by
    simp only [insertOpByPriority]
    split
    · simp only [List.mem_cons, mem_insertOpByPriority x y t]
      tauto
    · simp only [List.mem_cons]

theorem mem_sortByPriority_aux (y : Operation) : ∀ (l acc : List Operation),
    (y ∈ l.foldl (fun a x => insertOpByPriority x a) acc ↔ y ∈ acc ∨ y ∈ l)
  | [], acc => by simp
  | x :: t, acc => by
    simp only [List.foldl_cons]
    rw [mem_sortByPriority_aux y t (insertOpByPriority x acc), mem_insertOpByPriority]
    simp only [List.mem_cons]
    tauto

/-- Sorting by priority neither adds nor removes operations. -/
theorem mem_sortByPriority (y : Operation) (l : List Operation) :
    y ∈ sortByPriority l ↔ y ∈ l := by
  rw [sortByPriority, mem_sortByPriority_aux]
  simp

/-- Index separation on an appended list whose left part consists of
writes and whose right part contains no write. -/
theorem write_before_edit_in_append (A BC : List Operation)
    (hA : ∀ a ∈ A, a.intent = Intent.write)
    (hBC : ∀ b ∈ BC, b.intent ≠ Intent.write)
    (i j : Nat) (hi : i < (A ++ BC).length) (hj : j < (A ++ BC).length)
    (hwi : ((A ++ BC).get ⟨i, hi⟩).intent = Intent.write)
    (hej : ((A ++ BC).get ⟨j, hj⟩).intent = Intent.edit) : i < j := by
  have hiA : i < A.length := by
    by_contra hle
    push_neg at hle
    have hmem : (A ++ BC).get ⟨i, hi⟩ ∈ BC := by
      rw [List.get_eq_getElem, List.getElem_append_right hle]
      exact List.getElem_mem _
    exact hBC _ hmem hwi
  have hjA : A.length ≤ j := by
    by_contra hlt
    push_neg at hlt
    have hmem : (A ++ BC).get ⟨j, hj⟩ ∈ A := by
      rw [List.get_eq_getElem, List.getElem_append_left hlt]
      exact List.getElem_mem _
    have hw := hA _ hmem
    rw [hej] at hw
    exact Intent.noConfusion hw
  exact lt_of_lt_of_le hiA hjA

/-- C7: for every operation list (in particular every list containing only
write-then-edit pairs with a declared dependency) and every context, in
the order returned by sortOperationsByDependencies every write operation
is placed before every edit operation, regardless of the input order. -/
theorem c7_write_scheduled_before_edit (operations : List Operation)
    (context : CompoundContext) (i j : Nat)
    (hi : i < (sortOperationsByDependencies operations context).length)
    (hj : j < (sortOperationsByDependencies operations context).length)
    (hwi : ((sortOperationsByDependencies operations context).get ⟨i, hi⟩).intent = Intent.write)
    (hej : ((sortOperationsByDependencies operations context).get ⟨j, hj⟩).intent = Intent.edit) :
    i < j := by
  have hout : sortOperationsByDependencies operations context =
      sortByPriority (operations.filter (fun op => op.intent == Intent.write)) ++
        (sortByPriority (operations.filter (fun op => op.intent == Intent.edit)) ++
          sortByPriority (operations.filter
            (fun op => op.intent != Intent.write && op.intent != Intent.edit))) := by
    simp [sortOperationsByDependencies, List.append_assoc]
  have hAmem : ∀ a ∈ sortByPriority (operations.filter (fun op => op.intent == Intent.write)),
      a.intent = Intent.write := by
    intro a ha
    have := List.mem_filter.mp ((mem_sortByPriority a _).mp ha)
    exact beq_iff_eq.mp this.2
  have hBCmem : ∀ b ∈ sortByPriority (operations.filter (fun op => op.intent == Intent.edit)) ++
      sortByPriority (operations.filter
        (fun op => op.intent != Intent.write && op.intent != Intent.edit)),
      b.intent ≠ Intent.write := by
    intro b hb
    rcases List.mem_append.mp hb with hb | hb
    · have := List.mem_filter.mp ((mem_sortByPriority b _).mp hb)
      rw [beq_iff_eq.mp this.2]
      intro hcontra
      exact Intent.noConfusion hcontra
    · have := List.mem_filter.mp ((mem_sortByPriority b _).mp hb)
      have h2 := (Bool.and_eq_true _ _).mp this.2
      intro hcontra
      rw [hcontra] at h2
      simp at h2
  have hi2 : i < (sortByPriority (operations.filter (fun op => op.intent == Intent.write)) ++
      (sortByPriority (operations.filter (fun op => op.intent == Intent.edit)) ++
        sortByPriority (operations.filter
          (fun op => op.intent != Intent.write && op.intent != Intent.edit)))).length := by
    rw [← hout]; exact hi
  have hj2 : j < (sortByPriority (operations.filter (fun op => op.intent == Intent.write)) ++
      (sortByPriority (operations.filter (fun op => op.intent == Intent.edit)) ++
        sortByPriority (operations.filter
          (fun op => op.intent != Intent.write && op.intent != Intent.edit)))).length := by
    rw [← hout]; exact hj
  refine write_before_edit_in_append _ _ hAmem hBCmem i j hi2 hj2 ?_ ?_
  · rw [← List.get_of_eq hout ⟨i, hi⟩]
    exact hwi
  · rw [← List.get_of_eq hout ⟨j, hj⟩]
    exact hej

/-- Witness for C7 at a concrete two-element list given in edit-first
order: the write lands at index 0, the edit at index 1. -/
theorem c7_write_scheduled_before_edit_witness :
    (0 : Nat) < 1 :=
  c7_write_scheduled_before_edit
    [ { intent := Intent.edit, target := "site/index.html", description := "link the stylesheet",
        dependencies := ["site/styles.css"], priority := 2 }
    , { intent := Intent.write, target := "site/styles.css", description := "create the stylesheet",
        dependencies := [], priority := 1 } ]
    { folder := none, mainAction := none, relationships := none }
    0 1 (by decide) (by decide) (by decide) (by decide)

/-! ### Claim C1: the end-to-end CSS + HTML compound scenario -/

def c1Input : String := "in the site folder create a css file and modify index.html to link it"

/-- C1: on the input "in the site folder create a css file and modify
index.html to link it", recognizeCompoundIntent returns a compound intent
with exactly two operations: first a write of site/styles.css with no
dependencies, then an edit of site/index.html depending exactly on
site/styles.css, and the edit's synthesized description mentions the
filename styles.css. -/
theorem c1_compound_css_html_scenario :
    ((recognizeCompoundIntent c1Input).isCompound,
      (recognizeCompoundIntent c1Input).operations.map
        (fun op => (op.intent, op.target, op.dependencies)),
      (recognizeCompoundIntent c1Input).operations.map
        (fun op => jsIncludes op.description "styles.css")) =
    (true,
      [(Intent.write, "site/styles.css", ([] : List String)),
       (Intent.edit, "site/index.html", ["site/styles.css"])],
      [false, true]) := by
  decide

/-! ### Claim C2: dependency cycles are not detected by the executor -/

def opA2 : Operation :=
  { intent := Intent.write, target := "a.txt", description := "create a.txt"
  , dependencies := ["b.txt"], priority := 1 }

def opB2 : Operation :=
  { intent := Intent.write, target := "b.txt", description := "create b.txt"
  , dependencies := ["a.txt"], priority := 2 }

def ci2 : CompoundIntent :=
  { operations := [opA2, opB2], isCompound := true
  , originalInput := "create a.txt and b.txt depending on each other"
  , context := { folder := none, mainAction := none, relationships := none } }

/-- File system on which both targets of the cycle already exist. -/
def fs2 : String → Bool := fun s => s == "a.txt" || s == "b.txt"

/-- Command handlers that always succeed. -/
def cmdOk : Cmd → Option String := fun _ => none

/-- C2 (code bug evidence): validateOperationSequence does flag the
2-cycle, but executeCompoundIntent never calls it: on the cyclic list it
invokes both write handlers and reports full success without any cycle
error, instead of aborting with zero operations executed. -/
theorem c2_cycle_not_detected_by_executor :
    (validateOperationSequence [opA2, opB2]).isValid = false ∧
    (validateOperationSequence [opA2, opB2]).errors.length = 2 ∧
    (executeCompoundIntent fs2 cmdOk ci2).completedOperations = [opA2, opB2] ∧
    (executeCompoundIntent fs2 cmdOk ci2).failedOperations = [] ∧
    (executeCompoundIntent fs2 cmdOk ci2).success = true ∧
    (executeCompoundIntent fs2 cmdOk ci2).trace =
      [Cmd.writeCmd "a.txt" "create a.txt", Cmd.writeCmd "b.txt" "create b.txt"] := by
  decide

/-! ### Claim C4: the blocking decision scans all operations, not the
remaining ones -/

def opA4 : Operation :=
  { intent := Intent.edit, target := "x.html", description := "tweak x"
  , dependencies := ["b.txt"], priority := 1 }

def opB4 : Operation :=
  { intent := Intent.write, target := "b.txt", description := "create b"
  , dependencies := [], priority := 2 }

def opC4 : Operation :=
  { intent := Intent.write, target := "c.txt", description := "create c"
  , dependencies := [], priority := 3 }

def ci4 : CompoundIntent :=
  { operations := [opA4, opB4, opC4], isCompound := true
  , originalInput := "edit x.html then create b.txt and c.txt"
  , context := { folder := none, mainAction := none, relationships := none } }

def fs4 : String → Bool := fun s => s == "b.txt" || s == "x.html"

/-- Handlers where only the write of b.txt throws. -/
def cmd4 : Cmd → Option String := fun c =>
  match c with
  | Cmd.writeCmd t _ => if t == "b.txt" then some "disk full" else none
  | _ => none

/-- C4 (code bug evidence): when the write of b.txt fails, the only
remaining operation (the write of c.txt) declares no dependency on b.txt,
so by the documented rule the failure is non-blocking and c.txt should be
attempted; but isBlockingFailure scans all operations including the
already-completed edit of x.html (which depended on b.txt), so the run
aborts and c.txt is never attempted. -/
theorem c4_blocking_decision_scans_all_operations :
    (executeCompoundIntent fs4 cmd4 ci4).completedOperations = [opA4] ∧
    (executeCompoundIntent fs4 cmd4 ci4).failedOperations = [(opB4, "disk full")] ∧
    ([opC4].any (fun op => op.dependencies.contains opB4.target)) = false ∧
    isBlockingFailure opB4 [opA4, opB4, opC4] = true ∧
    ((executeCompoundIntent fs4 cmd4 ci4).completedOperations.contains opC4 ||
      ((executeCompoundIntent fs4 cmd4 ci4).failedOperations.map Prod.fst).contains opC4) =
      false ∧
    (executeCompoundIntent fs4 cmd4 ci4).trace =
      [Cmd.editCmd "x.html" "tweak x", Cmd.writeCmd "b.txt" "create b"] := by
  decide

/-! ### Claim C5: which created stylesheet the linking edit references -/

def w5a : Operation :=
  { intent := Intent.write, target := "site/a.css", description := "first stylesheet"
  , dependencies := [], priority := 1 }

def w5b : Operation :=
  { intent := Intent.write, target := "site/b.css", description := "second stylesheet"
  , dependencies := [], priority := 2 }

def e5 : Operation :=
  { intent := Intent.edit, target := "site/index.html", description := "link the stylesheet"
  , dependencies := [], priority := 3 }

def ci5 : CompoundIntent :=
  { operations := [w5a, w5b, e5], isCompound := true
  , originalInput := "create two stylesheets and link"
  , context := { folder := some "site", mainAction := some "create"
               , relationships := some [{ src := "css", dst := "html", rel := RelType.link }] } }

/-- C5 counterexample: with two stylesheets created earlier in the run
(site/b.css most recently), the synthesized linking description passed to
the edit handler references a.css, the first created stylesheet, and not
b.css, the most recently created one — refuting the claim as stated. -/
theorem c5_counterexample_first_css_not_most_recent :
    (executeCompoundIntent (fun _ => false) cmdOk ci5).trace =
      [Cmd.writeCmd "site/a.css" "first stylesheet",
       Cmd.writeCmd "site/b.css" "second stylesheet",
       Cmd.editCmd "site/index.html" (linkingDescriptionFor "a.css")] ∧
    jsIncludes (linkingDescriptionFor "a.css") "a.css" = true ∧
    jsIncludes (linkingDescriptionFor "a.css") "b.css" = false := by
  decide

/-- `find?` returns the first element satisfying the predicate. -/
theorem find_first_of_split {α : Type} (p : α → Bool) : ∀ (pre : List α) (c : α) (post : List α),
    (∀ f ∈ pre, p f = false) → p c = true →
    (pre ++ c :: post).find? p = some c
  | [], c, post => by
    intro _ hc
    simp [List.find?_cons_of_pos, hc]
  | a :: t, c, post => by
    intro hpre hc
    rw [List.cons_append, List.find?_cons_of_neg]
    · exact find_first_of_split p t c post (fun f hf => hpre f (List.mem_cons_of_mem a hf)) hc
    · simp [hpre a (List.mem_cons_self a t)]

/-- C5 amended: the linking edit synthesizes its instruction from the
first (earliest) `.css` file recorded in createdFiles — the actual created
filename, but the earliest matching one, not the most recent: later
created stylesheets in `post` do not change the referenced name. -/
theorem c5_amended_links_earliest_css (cmd : Cmd → Option String) (operation : Operation)
    (ctx : ExecutionContext) (pre post : List String) (c : String)
    (hctx : ctx.createdFiles = pre ++ c :: post)
    (hpre : ∀ f ∈ pre, jsEndsWith f ".css" = false)
    (hc : jsEndsWith c ".css" = true) :
    executeHTMLCSSLinking cmd operation ctx =
      (cmd (Cmd.editCmd operation.target (linkingDescriptionFor (popSegment c))),
        [Cmd.editCmd operation.target (linkingDescriptionFor (popSegment c))]) := by
  unfold executeHTMLCSSLinking
  rw [hctx, find_first_of_split _ pre c post hpre hc]

/-- Witness for the amended C5: createdFiles holding a non-stylesheet, then
site/a.css, then the later site/b.css; the synthesized edit references
a.css. -/
theorem c5_amended_links_earliest_css_witness :
    executeHTMLCSSLinking cmdOk e5
      { createdFiles := ["site/readme.txt", "site/a.css", "site/b.css"]
      , modifiedFiles := [], contextData := [] } =
      (none, [Cmd.editCmd "site/index.html" (linkingDescriptionFor "a.css")]) :=
  (c5_amended_links_earliest_css cmdOk e5
      { createdFiles := ["site/readme.txt", "site/a.css", "site/b.css"]
      , modifiedFiles := [], contextData := [] }
      ["site/readme.txt"] ["site/b.css"] "site/a.css" rfl (by decide) (by decide)).trans
    (by decide)

/-! ### Claim C6: ask-classified inputs and the compound parser -/

def c6Input : String := "explain make stylesheet and link it to index"

/-- C6 counterexample: the single-intent classifier labels this input
`ask` (its only structural hit is the ask pattern on "explain "), yet the
compound parser detects the CSS + stylesheet linking pattern and returns a
compound intent with two operations instead of a non-compound intent with
an empty operation list. -/
theorem c6_counterexample_ask_input_parsed_compound :
    recognizeIntent c6Input = "ask" ∧
    (recognizeCompoundIntent c6Input).isCompound = true ∧
    (recognizeCompoundIntent c6Input).operations.length = 2 := by
  decide

/-- C6 amended: when the single-intent classifier yields `ask` and, in
addition, the compound parser's own detection fails and its internal basic
classifier also yields `ask`, recognizeCompoundIntent returns a
non-compound intent with an empty operations list. -/
theorem c6_amended_ask_input_yields_empty (input : String)
    (_hask : recognizeIntent input = "ask")
    (hdet : detectCompoundRequest input = false)
    (hbasic : recognizeBasicIntent input = "ask") :
    (recognizeCompoundIntent input).isCompound = false ∧
    (recognizeCompoundIntent input).operations = [] := by
  simp [recognizeCompoundIntent, hdet, parseSingleOperation, hbasic]

/-- Witness for the amended C6 on the input "hello". -/
theorem c6_amended_ask_input_yields_empty_witness :
    recognizeIntent "hello" = "ask" ∧ detectCompoundRequest "hello" = false ∧
    recognizeBasicIntent "hello" = "ask" ∧
    ((recognizeCompoundIntent "hello").isCompound = false ∧
      (recognizeCompoundIntent "hello").operations = []) :=
  ⟨by decide, by decide, by decide,
    c6_amended_ask_input_yields_empty "hello" (by decide) (by decide) (by decide)⟩

/-! ### Claim C8: the low-confidence fallback to the default profile -/

def c8Prompt : String := "song poem story joke haiku"

/-- C8 counterexample: on this prompt with the ".ts" extension hint and the
default configuration, the classifier's confidence is 6/11, below the 0.6
threshold, and no user override applies — yet because a file-extension
bonus applied, selectModel keeps the code profile with the 'extension'
override instead of falling back to the configured default profile
(analysis). -/
theorem c8_counterexample_extension_bonus_skips_fallback :
    (classifyContent getDefaultConfig defaultUserPreferences c8Prompt (some ".ts") none
        none).confidence < getDefaultConfig.routing.confidence_threshold ∧
    (classifyContent getDefaultConfig defaultUserPreferences c8Prompt (some ".ts") none
        none).fileExtensionBonus = some true ∧
    (classifyContent getDefaultConfig defaultUserPreferences c8Prompt (some ".ts") none
        none).userOverride = some false ∧
    (selectModel getDefaultConfig defaultUserPreferences c8Prompt (some ".ts") none
        none).selectedModel = ModelKey.code ∧
    (selectModel getDefaultConfig defaultUserPreferences c8Prompt (some ".ts") none
        none).override = OverrideType.extension ∧
    defaultUserPreferences.defaultModel.getD getDefaultConfig.routing.defaultModel =
      ModelKey.analysis := by
  decide

/-- C8 amended: with no user override and no file-extension bonus in
effect, a confidence below the configured threshold makes selectModel
fall back to the configured default profile (the user-preferred default
when set, else the routing default), with the 'default' override kind. -/
theorem c8_amended_low_confidence_falls_back (config : MultiModelConfig)
    (userPreferences : UserPreferences) (prompt : String) (fileExtension : Option String)
    (isCompound : Option Bool)
    (huser : (classifyContent config userPreferences prompt fileExtension none
        isCompound).userOverride.getD false = false)
    (hext : (classifyContent config userPreferences prompt fileExtension none
        isCompound).fileExtensionBonus.getD false = false)
    (hconf : qlt (classifyContent config userPreferences prompt fileExtension none
        isCompound).confidence config.routing.confidence_threshold = true) :
    (selectModel config userPreferences prompt fileExtension none isCompound).selectedModel =
      userPreferences.defaultModel.getD config.routing.defaultModel ∧
    (selectModel config userPreferences prompt fileExtension none isCompound).override =
      OverrideType.dflt := by
  simp only [selectModel, huser, hext, Bool.false_eq_true, if_false]
  rw [if_pos hconf]
  exact ⟨rfl, rfl⟩

/-- Witness for the amended C8: the prompt "song function" scores one
creative and one code hit, confidence 1/2 below the 0.6 threshold, so the
default profile (analysis) is selected. -/
theorem c8_amended_low_confidence_falls_back_witness :
    (selectModel getDefaultConfig defaultUserPreferences "song function" none none
        none).selectedModel =
      defaultUserPreferences.defaultModel.getD getDefaultConfig.routing.defaultModel ∧
    (selectModel getDefaultConfig defaultUserPreferences "song function" none none
        none).override = OverrideType.dflt :=
  c8_amended_low_confidence_falls_back getDefaultConfig defaultUserPreferences
    "song function" none none (by decide) (by decide) (by decide)

/-! ### Claim C9: classification is a pure function of text and
configuration -/

/-- C9: two invocations of the content classifier with the same text,
file-extension hint, configuration and user preferences, and no user
override return identical suggestedModel and identical confidence — in
particular the result does not depend on the router's mutable telemetry
state (performance tracker and health status), which classifyContent
neither reads nor writes. -/
theorem c9_classify_content_deterministic (config : MultiModelConfig)
    (userPreferences : UserPreferences)
    (perf1 perf2 : List (String × ModelPerformance))
    (health1 health2 : List (String × ModelHealth))
    (prompt : String) (fileExtension : Option String) (isCompound : Option Bool) :
    (EnhancedModelRouter.classifyContent
        { config := config, userPreferences := userPreferences
        , performanceTracker := perf1, healthStatus := health1 }
        prompt fileExtension none isCompound).suggestedModel =
      (EnhancedModelRouter.classifyContent
        { config := config, userPreferences := userPreferences
        , performanceTracker := perf2, healthStatus := health2 }
        prompt fileExtension none isCompound).suggestedModel ∧
    (EnhancedModelRouter.classifyContent
        { config := config, userPreferences := userPreferences
        , performanceTracker := perf1, healthStatus := health1 }
        prompt fileExtension none isCompound).confidence =
      (EnhancedModelRouter.classifyContent
        { config := config, userPreferences := userPreferences
        , performanceTracker := perf2, healthStatus := health2 }
        prompt fileExtension none isCompound).confidence :=
  ⟨rfl, rfl⟩

end CodeAgent



